import Mathlib

/-!
Verification of the GPS-copy matcher in copy_gps_by_datetime_and_lens.py.

The embedding translates the matching engine of the script into Lean:

* metadata records returned by the external tool are sparse mappings from
  tag names to values; a value is absent, a string, or an integer
  (the tool is invoked with numeric output, so counters may arrive as
  integers).  We model this with the type PyVal and a fixed-field record
  Metadata whose fields default to absence, mirroring dict.get.
* Python truthiness (the `or` chains and `if value:` tests of the source)
  is modelled by `truthy` and `pyOr`.
* The filesystem probe performed by RefLookup.find (direct path test,
  recursive glob, case-insensitive scan, followed by external reads) is
  abstracted as a deterministic oracle `search : String -> Option Metadata`
  of the requested filename, since the filesystem is read-only during a
  run; the cache logic around it is embedded faithfully.
* Paths are compared as the strings the tool printed (the script wraps
  them in Path objects; path normalisation beyond that is not exercised
  by the scanned populations and is out of scope here).
-/

namespace GPSCopy

/-- A Python value as it appears in the JSON records of the external tool:
absent, a string, or an integer. -/
inductive PyVal where
  | none
  | str (s : String)
  | int (n : Int)
deriving DecidableEq

/-- Python truthiness restricted to PyVal: None and the empty string and the
integer zero are falsy, everything else is truthy. -/
def truthy : PyVal → Bool
  | .none => false
  | .str s => s ≠ ""
  | .int n => n ≠ 0

/-- Rendering of a PyVal inside a Python f-string. -/
def pyStr : PyVal → String
  | .none => "None"
  | .str s => s
  | .int n => toString n

/-- The Python expression `a or b`: the first operand when truthy, otherwise
the second. -/
def pyOr (a b : PyVal) : PyVal := if truthy a then a else b

/-- Truthiness of an Optional[str] value (None and the empty string are
falsy). -/
def truthyOpt : Option String → Bool
  | Option.none => false
  | Option.some s => s ≠ ""

/-- Python str.lower restricted to the ASCII range (the filenames and tag
values the script handles). -/
def py_lower (s : String) : String := ⟨s.data.map Char.toLower⟩

/-- Python str.strip: remove leading and trailing whitespace. -/
def py_strip (s : String) : String :=
  ⟨((s.data.dropWhile Char.isWhitespace).reverse.dropWhile Char.isWhitespace).reverse⟩

/-- Decimal digit run to a number; absent unless the run is nonempty and all
digits. -/
def digitsToNat (l : List Char) : Option Nat :=
  if l ≠ [] ∧ l.all Char.isDigit then
    Option.some (l.foldl (fun a c => a * 10 + (c.toNat - 48)) 0)
  else Option.none

/-- Python int(s) on an already-stripped string: optional sign followed by
decimal digits, failure modelled as absence. -/
def pyInt (s : String) : Option Int :=
  match s.data with
  | '+' :: rest => (digitsToNat rest).map Int.ofNat
  | '-' :: rest => (digitsToNat rest).map (fun n => -(n : Int))
  | l => (digitsToNat l).map Int.ofNat

/-- ExifClient.to_int: None stays absent; otherwise str(value).strip() is
parsed as an integer, any failure yielding absence. -/
def to_int (v : PyVal) : Option Int :=
  match v with
  | .none => Option.none
  | .int n => Option.some n
  | .str s => pyInt (py_strip s)

/-- Character at Python index -k (k from the end), with a default that is
only reached outside the guarded range. -/
def charFromEnd (l : List Char) (k : Nat) : Char := l.getD (l.length - k) ' '

/-- ExifClient._has_offset: len(s) >= 6 and s[-3] == ":" and s[-6] in
["+", "-"]. -/
def has_offset (s : String) : Bool :=
  decide (6 ≤ s.data.length) && (charFromEnd s.data 3 == ':') &&
    ((charFromEnd s.data 6 == '+') || (charFromEnd s.data 6 == '-'))

/-- ExifClient._has_subsec: the character "." occurs in s. -/
def has_subsec (s : String) : Bool := s.data.contains '.'

/-- One metadata record: the tag set the script ever reads, every field
possibly absent (dict.get).  CameraSerialNumber and BodySerialNumber are
carried because a record is a sparse mapping that may hold tags the script
does not request. -/
structure Metadata where
  SourceFile : String
  CreateDate : PyVal
  SubSecTime : PyVal
  SubSecTimeOriginal : PyVal
  SubSecTimeDigitized : PyVal
  OffsetTime : PyVal
  OffsetTimeOriginal : PyVal
  OffsetTimeDigitized : PyVal
  DateCreated : PyVal
  TimeCreated : PyVal
  ShutterCount : PyVal
  MechanicalShutterCount : PyVal
  ImageNumber : PyVal
  FileNumber : PyVal
  SerialNumber : PyVal
  LensID : PyVal
  LensModel : PyVal
  PreservedFileName : PyVal
  CameraSerialNumber : PyVal
  BodySerialNumber : PyVal
deriving DecidableEq

/-- A record with every tag absent, used as the base of concrete records. -/
def noneMeta : Metadata :=
  { SourceFile := ""
    CreateDate := .none
    SubSecTime := .none
    SubSecTimeOriginal := .none
    SubSecTimeDigitized := .none
    OffsetTime := .none
    OffsetTimeOriginal := .none
    OffsetTimeDigitized := .none
    DateCreated := .none
    TimeCreated := .none
    ShutterCount := .none
    MechanicalShutterCount := .none
    ImageNumber := .none
    FileNumber := .none
    SerialNumber := .none
    LensID := .none
    LensModel := .none
    PreservedFileName := .none
    CameraSerialNumber := .none
    BodySerialNumber := .none }

/-- The sub-second augmentation of the CreateDate branch of
ExifClient.compose_creation: when the string has no fractional part, the
first truthy of digitized, original, generic is appended as ".value"
provided it is neither None nor the empty string. -/
def branch1_subsec (s : String) (digi orig generic : PyVal) : String :=
  if ¬ has_subsec s then
    let sub := pyOr (pyOr digi orig) generic
    if sub ≠ PyVal.none ∧ sub ≠ PyVal.str "" then s ++ "." ++ pyStr sub else s
  else s

/-- The sub-second augmentation of the DateCreated/TimeCreated branch: the
precedence is generic, digitized, original, and the fractional-part test is
part of the same conditional. -/
def branch2_subsec (s : String) (generic digi orig : PyVal) : String :=
  let sub := pyOr (pyOr generic digi) orig
  if sub ≠ PyVal.none ∧ sub ≠ PyVal.str "" ∧ ¬ has_subsec s then
    s ++ "." ++ pyStr sub
  else s

/-- The offset augmentation of ExifClient.compose_creation: the offset value
is appended when the current string does not already end in the offset shape
and the value is truthy. -/
def offset_augment (s : String) (offset_any : PyVal) : String :=
  if ¬ has_offset s ∧ truthy offset_any then s ++ pyStr offset_any else s

/-- ExifClient.compose_creation. -/
def compose_creation (m : Metadata) : Option String :=
  let offset_any := pyOr (pyOr m.OffsetTimeDigitized m.OffsetTimeOriginal) m.OffsetTime
  if truthy m.CreateDate then
    Option.some (offset_augment
      (branch1_subsec (pyStr m.CreateDate)
        m.SubSecTimeDigitized m.SubSecTimeOriginal m.SubSecTime)
      offset_any)
  else if truthy m.DateCreated ∧ truthy m.TimeCreated then
    Option.some (offset_augment
      (branch2_subsec (pyStr m.DateCreated ++ " " ++ pyStr m.TimeCreated)
        m.SubSecTime m.SubSecTimeDigitized m.SubSecTimeOriginal)
      offset_any)
  else Option.none

/-- Python Path(p).name: the component after the last slash.  (pathlib also
normalises trailing slashes; the paths delivered by the tool never end in a
slash.) -/
def pathName (p : String) : String :=
  ⟨(p.data.reverse.takeWhile (fun c => c ≠ '/')).reverse⟩

/-- Python Path(name).stem on a bare filename: the name with the suffix
stripped, where a suffix starts at the last dot provided that dot is neither
the first nor the last character. -/
def pathStem (name : String) : String :=
  let rev := name.data.reverse
  let suffixRev := rev.takeWhile (fun c => c ≠ '.')
  match rev.dropWhile (fun c => c ≠ '.') with
  | [] => name
  | _ :: stemRev =>
    if stemRev = [] ∨ suffixRev = [] then name else ⟨stemRev.reverse⟩

/-- One row of the RAW index, as built in GPSCopier.build_raw_indices. -/
structure Entry where
  path : String
  createKey : Option String
  shutterCount : Option Int
  mechanicalShutterCount : Option Int
  imageNumber : Option Int
  fileNumber : Option Int
  serialNumber : PyVal
  lensID : PyVal
deriving DecidableEq

/-- The entry GPSCopier.build_raw_indices derives from one RAW record: the
frame counter is to_int(ShutterCount), else to_int(MechanicalShutterCount),
else the parsed ImageNumber; the serial is the raw SerialNumber value; the
lens is LensID or-else LensModel. -/
def entryOf (m : Metadata) : Entry :=
  let shutter0 : Option Int :=
    match to_int m.ShutterCount with
    | Option.some n => Option.some n
    | Option.none => to_int m.MechanicalShutterCount
  let image_number := to_int m.ImageNumber
  let shutter_count : Option Int :=
    match shutter0 with
    | Option.some n => Option.some n
    | Option.none => image_number
  { path := m.SourceFile
    createKey := compose_creation m
    shutterCount := shutter_count
    mechanicalShutterCount := to_int m.MechanicalShutterCount
    imageNumber := image_number
    fileNumber := to_int m.FileNumber
    serialNumber := m.SerialNumber
    lensID := pyOr m.LensID m.LensModel }

/-- The five defaultdict indices of GPSCopier, read through dict.get with an
empty-list default: each bucket holds, in scan order, the entries the build
loop appended under that key. -/
structure Store where
  by_creation : String → List Entry
  by_shutter : Int → List Entry
  by_image_number : Int → List Entry
  by_name : String → List Entry
  by_basename : String → List Entry

/-- GPSCopier.build_raw_indices: a bucket holds exactly the entries whose
derived key equals the bucket key (creation keys only when truthy), in list
order; the filename indices are always populated. -/
def build_raw_indices (raws : List Metadata) : Store :=
  let entries := raws.map entryOf
  { by_creation := fun k =>
      entries.filter (fun e => truthyOpt e.createKey && (e.createKey == Option.some k))
    by_shutter := fun k => entries.filter (fun e => e.shutterCount == Option.some k)
    by_image_number := fun k => entries.filter (fun e => e.imageNumber == Option.some k)
    by_name := fun k => entries.filter (fun e => py_lower (pathName e.path) == k)
    by_basename := fun k =>
      entries.filter (fun e => py_lower (pathStem (pathName e.path)) == k) }

/-- One step of the dict comprehension used for deduplication: inserting an
entry keyed by its path into an insertion-ordered dictionary (an existing
key keeps its position but takes the new value). -/
def dictInsert (d : List (String × Entry)) (e : Entry) : List (String × Entry) :=
  if d.any (fun kv => kv.1 == e.path) then
    d.map (fun kv => if kv.1 == e.path then (kv.1, e) else kv)
  else d ++ [(e.path, e)]

/-- The idiom list(dict-comprehension keyed by path .values()): for each
distinct path, one entry (the last one seen), in order of first
occurrence. -/
def dedupByPath (l : List Entry) : List Entry :=
  (l.foldl dictInsert []).map (fun kv => kv.2)

/-- GPSCopier._apply_imagenumber_fallback: look the number up in the
frame-counter index, deduplicate by path, and when more than one candidate
remains and a creation key is truthy, narrow to the candidates sharing it,
falling back to the unnarrowed set when the narrowing empties it. -/
def apply_imagenumber_fallback (st : Store) (image_number : Option Int)
    (creation_key : Option String) : List Entry :=
  match image_number with
  | Option.none => []
  | Option.some n =>
    let candidates := dedupByPath (st.by_shutter n)
    if 1 < candidates.length ∧ truthyOpt creation_key then
      let narrowed := candidates.filter (fun e => e.createKey == creation_key)
      if narrowed.isEmpty then candidates else narrowed
    else candidates

/-- The deduplicated union the preserved-name fallback draws from: the
exact-filename bucket of the lower-cased preserved string followed by the
stem bucket. -/
def preserved_candidates (st : Store) (preserved_name : PyVal) : List Entry :=
  let pn := pyStr preserved_name
  dedupByPath (st.by_name (py_lower pn) ++
    st.by_basename (py_lower (pathStem (pathName pn))))

/-- GPSCopier._apply_preserved_name_fallback: the deduplicated bucket
union, then the same narrow-or-keep treatment as the frame-counter
fallback. -/
def apply_preserved_name_fallback (st : Store) (preserved_name : PyVal)
    (creation_key : Option String) : List Entry :=
  if ¬ truthy preserved_name then []
  else
    let candidates := preserved_candidates st preserved_name
    if 1 < candidates.length ∧ truthyOpt creation_key then
      let narrowed := candidates.filter (fun e => e.createKey == creation_key)
      if narrowed.isEmpty then candidates else narrowed
    else candidates

/-- GPSCopier._norm: lower-case and strip strings, anything else becomes
absent. -/
def norm : PyVal → Option String
  | .str s => Option.some (py_strip (py_lower s))
  | _ => Option.none

/-- The run configuration bits the matcher consults. -/
structure Config where
  require_serial : Bool
  require_lens : Bool
  has_ref_root : Bool
deriving DecidableEq

/-- The serial value taken from an optional reference record
(ref_meta.get if ref_meta else None). -/
def ref_serial_of : Option Metadata → PyVal
  | Option.some r => r.SerialNumber
  | Option.none => .none

/-- The lens value taken from an optional reference record (LensID or-else
LensModel when a record exists). -/
def ref_lens_of : Option Metadata → PyVal
  | Option.some r => pyOr r.LensID r.LensModel
  | Option.none => .none

/-- GPSCopier._apply_lens_serial_requirements: wanted values prefer the JPEG
record and fall back to the reference record; each enabled requirement
filters only when its wanted value is truthy, and is skipped for this image
otherwise. -/
def apply_lens_serial_requirements (cfg : Config) (candidates : List Entry)
    (jpeg_meta : Metadata) (ref_meta : Option Metadata) : List Entry :=
  if candidates.isEmpty then candidates
  else
    let want_serial := pyOr jpeg_meta.SerialNumber (ref_serial_of ref_meta)
    let want_lens := pyOr (pyOr jpeg_meta.LensID jpeg_meta.LensModel) (ref_lens_of ref_meta)
    let candidates1 :=
      if cfg.require_serial ∧ truthy want_serial then
        candidates.filter (fun c => norm c.serialNumber == norm want_serial)
      else candidates
    if cfg.require_lens ∧ truthy want_lens then
      candidates1.filter (fun c => norm c.lensID == norm want_lens)
    else candidates1

/-- The primary lookup of GPSCopier.match_jpeg_to_raw: when the creation key
is truthy, the creation-key bucket deduplicated by path, otherwise the empty
starting list. -/
def primary_candidates (st : Store) (creation_key : Option String) : List Entry :=
  match creation_key with
  | Option.some k => if k ≠ "" then dedupByPath (st.by_creation k) else []
  | Option.none => []

/-- The self-fallback block of match_jpeg_to_raw: entered only when the set
is empty or plural; a nonempty frame-counter result replaces the set, and a
nonempty preserved-name result replaces it again when the set is still empty
or plural and the JPEG carries a preserved name. -/
def self_fallback (st : Store) (jpeg_metadata : Metadata)
    (creation_key : Option String) (candidate_list : List Entry) : List Entry :=
  if candidate_list.isEmpty ∨ 1 < candidate_list.length then
    let c_sc := apply_imagenumber_fallback st (to_int jpeg_metadata.ImageNumber) creation_key
    let candidate_list := if ¬ c_sc.isEmpty then c_sc else candidate_list
    if (candidate_list.isEmpty ∨ 1 < candidate_list.length) ∧
        truthy jpeg_metadata.PreservedFileName then
      let c_name := apply_preserved_name_fallback st jpeg_metadata.PreservedFileName
        creation_key
      if ¬ c_name.isEmpty then c_name else candidate_list
    else candidate_list
  else candidate_list

/-- The reference block of match_jpeg_to_raw once a reference record was
found: adopt the reference creation key when the own key is falsy, rerun the
frame-counter fallback with the reference image number (a singleton is
accepted and marks the reference used, a plural set replaces the set without
marking), then likewise the preserved-name fallback when the set is still
empty or plural. -/
def ref_fallback (st : Store) (rm : Metadata) (creation_key0 : Option String)
    (candidate_list : List Entry) (used_ref : Bool) : List Entry × Bool :=
  let creation_key :=
    if ¬ truthyOpt creation_key0 then
      match compose_creation rm with
      | Option.some rk => if rk ≠ "" then Option.some rk else creation_key0
      | Option.none => creation_key0
    else creation_key0
  let c_sc := apply_imagenumber_fallback st (to_int rm.ImageNumber) creation_key
  let p : List Entry × Bool :=
    if c_sc.length = 1 then (c_sc, true)
    else if 1 < c_sc.length then (c_sc, used_ref)
    else (candidate_list, used_ref)
  if p.1.isEmpty ∨ 1 < p.1.length then
    let c_name := apply_preserved_name_fallback st rm.PreservedFileName creation_key
    if c_name.length = 1 then (c_name, true)
    else if 1 < c_name.length then (c_name, p.2)
    else p
  else p

/-- The candidate set and used-reference flag of match_jpeg_to_raw at the
point where the outcome rules are applied, i.e. after the primary lookup,
the self fallbacks, the optional reference block, and the identity
filters. -/
def matchFinalCandidates (cfg : Config) (st : Store)
    (refFind : String → Option Metadata) (jpeg_metadata : Metadata)
    (use_reference : Bool) : List Entry × Bool :=
  let creation_key := compose_creation jpeg_metadata
  let cl0 := primary_candidates st creation_key
  let cl1 := self_fallback st jpeg_metadata creation_key cl0
  let q : List Entry × Bool × Option Metadata :=
    if (cl1.isEmpty ∨ 1 < cl1.length) ∧ use_reference ∧ cfg.has_ref_root then
      match refFind (pathName jpeg_metadata.SourceFile) with
      | Option.some rm =>
        let p := ref_fallback st rm creation_key cl1 false
        (p.1, p.2, Option.some rm)
      | Option.none => (cl1, false, Option.none)
    else (cl1, false, Option.none)
  let cl3 :=
    if ¬ q.1.isEmpty ∧ (cfg.require_serial || cfg.require_lens) then
      apply_lens_serial_requirements cfg q.1 jpeg_metadata q.2.2
    else q.1
  (cl3, q.2.1)

/-- GPSCopier.match_jpeg_to_raw: returns (best_raw, used_reference_fallback,
was_ambiguous) from the final candidate set. -/
def match_jpeg_to_raw (cfg : Config) (st : Store)
    (refFind : String → Option Metadata) (jpeg_metadata : Metadata)
    (use_reference : Bool) : Option Entry × Bool × Bool :=
  let cl := (matchFinalCandidates cfg st refFind jpeg_metadata use_reference).1
  let used_ref := (matchFinalCandidates cfg st refFind jpeg_metadata use_reference).2
  if cl.isEmpty then (Option.none, used_ref, false)
  else if 1 < cl.length then (Option.none, used_ref, true)
  else (cl.head?, used_ref, false)

/-- The per-JPEG body of GPSCopier.run, reduced to its graft decision: an
ambiguous result is skipped first, an absent match is skipped next, and
otherwise exactly one graft (source RAW path, target JPEG path) is
issued. -/
def grafts_for (cfg : Config) (st : Store) (refFind : String → Option Metadata)
    (jpeg_metadata : Metadata) : List (String × String) :=
  let r := match_jpeg_to_raw cfg st refFind jpeg_metadata true
  if r.2.2 then []
  else
    match r.1 with
    | Option.none => []
    | Option.some best => [(best.path, jpeg_metadata.SourceFile)]

/-- GPSCopier.run, projected to the sequence of graft invocations it issues
over the scanned JPEG population. -/
def run_grafts (cfg : Config) (st : Store) (refFind : String → Option Metadata)
    (jpegs : List Metadata) : List (String × String) :=
  (jpegs.map (grafts_for cfg st refFind)).flatten

/-- The environment of RefLookup: whether a reference root is configured,
and the combined filesystem probe (direct path test, recursive glob,
case-insensitive scan, then external reads of the candidate paths) as a
deterministic oracle of the requested filename — the filesystem is not
modified during a run, so the probe is a pure function here. -/
structure RefEnv where
  has_root : Bool
  search : String → Option Metadata

/-- The memoisation dictionary of RefLookup, keyed by lower-cased filename;
insertion order is kept, which is all dict gives us here. -/
abbrev RefCache := List (String × Option Metadata)

/-- Dictionary lookup (key in self.cache / self.cache[key]). -/
def cacheLookup (c : RefCache) (k : String) : Option (Option Metadata) :=
  match c.find? (fun kv => kv.1 == k) with
  | Option.some kv => Option.some kv.2
  | Option.none => Option.none

/-- RefLookup.find: without a reference root the answer is absent and
nothing is touched; otherwise a cache hit on the lower-cased filename is
returned as is, and a miss runs the filesystem probe once and caches its
result (present or absent alike).  The third component reports whether the
filesystem was searched. -/
def ref_find (env : RefEnv) (cache : RefCache) (filename : String) :
    Option Metadata × RefCache × Bool :=
  if ¬ env.has_root then (Option.none, cache, false)
  else
    let key := py_lower filename
    match cacheLookup cache key with
    | Option.some cached => (cached, cache, false)
    | Option.none =>
      let ref_metadata := env.search filename
      (ref_metadata, cache ++ [(key, ref_metadata)], true)

/-- The number of filesystem searches a sequence of RefLookup.find calls
performs for filenames whose lower-cased form is k, starting from a given
cache. -/
def searchCount (env : RefEnv) (cache : RefCache) (names : List String)
    (k : String) : Nat :=
  match names with
  | [] => 0
  | f :: fs =>
    let r := ref_find env cache f
    (if py_lower f = k ∧ r.2.2 = true then 1 else 0) + searchCount env r.2.1 fs k

/-- Following the words of the specification, for comparison with the code
(section 4.2): the body identifier of an indexed entry is serialNumber if
present, else cameraSerialNumber, else bodySerialNumber. -/
def bodyIdentifierSpec (m : Metadata) : PyVal :=
  if m.SerialNumber ≠ PyVal.none then m.SerialNumber
  else if m.CameraSerialNumber ≠ PyVal.none then m.CameraSerialNumber
  else m.BodySerialNumber

/-- Following the words of the specification, for comparison with the code
(section 4.4 step 2): the frame counter of a JPEG record is the first
present value among its own shutterCount, mechanicalShutterCount and
imageNumber, with the same parsing as at index-build time. -/
def jpegFrameCounterSpec (m : Metadata) : Option Int :=
  match to_int m.ShutterCount with
  | Option.some n => Option.some n
  | Option.none =>
    match to_int m.MechanicalShutterCount with
    | Option.some n => Option.some n
    | Option.none => to_int m.ImageNumber

/-! Concrete runs used by the counterexamples and witnesses. -/

/-- Default run configuration: no identity requirements, no reference
root. -/
def cfg0 : Config :=
  { require_serial := false, require_lens := false, has_ref_root := false }

/-- Reference resolver of a run without a reference population. -/
def refNone : String → Option Metadata := fun _ => Option.none

/-- RAW with frame counter 5 and creation key K. -/
def rawA : Metadata :=
  { noneMeta with
    SourceFile := "/r/a.nef", ShutterCount := .int 5,
    CreateDate := .str "K" }

/-- RAW with frame counter 7 and creation key L. -/
def rawB : Metadata :=
  { noneMeta with
    SourceFile := "/r/b.nef", ShutterCount := .int 7,
    CreateDate := .str "L" }

/-- RAW with frame counter 9 and creation key K. -/
def rawC : Metadata :=
  { noneMeta with
    SourceFile := "/r/c.nef", ShutterCount := .int 9,
    CreateDate := .str "K" }

/-- RAW with frame counter 9 and creation key L. -/
def rawD : Metadata :=
  { noneMeta with
    SourceFile := "/r/d.nef", ShutterCount := .int 9,
    CreateDate := .str "L" }

/-- RAW named IMG_9.NEF with creation key K. -/
def rawE : Metadata :=
  { noneMeta with SourceFile := "/r/IMG_9.NEF", CreateDate := .str "K" }

/-- RAW with the same filename in a subfolder and creation key L. -/
def rawF : Metadata :=
  { noneMeta with SourceFile := "/r/x/IMG_9.NEF", CreateDate := .str "L" }

/-- Two RAWs sharing creation key M, an ambiguous pair. -/
def rawG : Metadata :=
  { noneMeta with SourceFile := "/r/g.nef", CreateDate := .str "M" }

/-- Second RAW of the ambiguous pair. -/
def rawH : Metadata :=
  { noneMeta with SourceFile := "/r/h.nef", CreateDate := .str "M" }

/-- The index store over the eight RAW records above. -/
def stW : Store :=
  build_raw_indices [rawA, rawB, rawC, rawD, rawE, rawF, rawG, rawH]

/-- A JPEG with no timestamps whose own ShutterCount is 5 but whose
ImageNumber is 7. -/
def jpegSelf : Metadata :=
  { noneMeta with
    SourceFile := "/j/x.jpg", ShutterCount := .int 5,
    ImageNumber := .int 7 }

/-- A JPEG whose creation key M matches the ambiguous pair. -/
def jpegAmb : Metadata :=
  { noneMeta with SourceFile := "/j/z.jpg", CreateDate := .str "M" }

/-- A record whose CreateDate already carries a UTC offset but no
fractional part, with sub-second and offset tags both present. -/
def mC8 : Metadata :=
  { noneMeta with
    SourceFile := "/j/y.jpg",
    CreateDate := .str "2024:05:01 10:00:00+02:00",
    SubSecTime := .str "123", OffsetTime := .str "+02:00" }

/-- A record whose CreateDate already carries a fractional part. -/
def mW1 : Metadata :=
  { noneMeta with
    SourceFile := "/j/w1.jpg",
    CreateDate := .str "2024:05:01 10:00:00.456",
    SubSecTime := .str "789" }

/-- A record whose CreateDate carries both a fractional part and a UTC
offset, with a further offset tag present. -/
def mW2 : Metadata :=
  { noneMeta with
    SourceFile := "/j/w2.jpg",
    CreateDate := .str "2024:05:01 10:00:00.456+02:00",
    OffsetTime := .str "+09:00" }

/-- A RAW record carrying CameraSerialNumber but no SerialNumber. -/
def mC5 : Metadata :=
  { noneMeta with SourceFile := "/r/s.nef", CameraSerialNumber := .str "X" }

/-- The record of claim C10: digitized sub-second field empty, original
sub-second field populated, every offset field the empty string. -/
def c10rec (cd : String) (dg : PyVal) (t : String) (g : PyVal) : Metadata :=
  { noneMeta with
    SourceFile := "/j/c10.jpg", CreateDate := .str cd,
    SubSecTimeDigitized := dg, SubSecTimeOriginal := .str t,
    SubSecTime := g, OffsetTime := .str "", OffsetTimeOriginal := .str "",
    OffsetTimeDigitized := .str "" }

/-! Claim theorems. -/

/-- C1: match_jpeg_to_raw maps its final candidate set to the outcome
triple: an empty set yields (absent, usedReference, false), a singleton
yields (that entry, usedReference, false), and a plural set yields
(absent, usedReference, true) — in particular no entry of a plural set is
ever selected. -/
theorem c1_outcome_rules (cfg : Config) (st : Store)
    (rf : String → Option Metadata) (j : Metadata) (u : Bool) :
    ((matchFinalCandidates cfg st rf j u).1 = [] →
      match_jpeg_to_raw cfg st rf j u =
        (Option.none, (matchFinalCandidates cfg st rf j u).2, false))
    ∧ (∀ e, (matchFinalCandidates cfg st rf j u).1 = [e] →
      match_jpeg_to_raw cfg st rf j u =
        (Option.some e, (matchFinalCandidates cfg st rf j u).2, false))
    ∧ (1 < (matchFinalCandidates cfg st rf j u).1.length →
      match_jpeg_to_raw cfg st rf j u =
        (Option.none, (matchFinalCandidates cfg st rf j u).2, true)) := by
  refine ⟨?_, ?_, ?_⟩
  · intro h
    simp [match_jpeg_to_raw, h]
  · intro e h
    simp [match_jpeg_to_raw, h]
  · intro h
    have hne : ¬ (matchFinalCandidates cfg st rf j u).1.isEmpty := by
      cases hcl : (matchFinalCandidates cfg st rf j u).1 with
      | nil => rw [hcl] at h; simp at h
      | cons a l => simp [hcl]
    simp [match_jpeg_to_raw, hne, h]

/-- Witness for C1: the concrete run with one surviving candidate returns
exactly that candidate. -/
theorem c1_outcome_rules_witness :
    match_jpeg_to_raw cfg0 stW refNone jpegSelf true =
      (Option.some (entryOf rawB), false, false) := by
  have h := (c1_outcome_rules cfg0 stW refNone jpegSelf true).2.1
    (entryOf rawB) (by decide)
  have h2 : (matchFinalCandidates cfg0 stW refNone jpegSelf true).2 = false := by
    decide
  rw [h2] at h
  exact h

/-- C2: the run loop issues the GPS graft for a JPEG exactly when the
matcher returned a present, unambiguous entry for it; an ambiguous or
absent result issues no graft, and the run is the concatenation of the
per-JPEG decisions. -/
theorem c2_graft_only_on_match (cfg : Config) (st : Store)
    (rf : String → Option Metadata) (jpegs : List Metadata) (j : Metadata) :
    run_grafts cfg st rf jpegs = (jpegs.map (grafts_for cfg st rf)).flatten
    ∧ (∀ e ur, match_jpeg_to_raw cfg st rf j true = (Option.some e, ur, false) →
        grafts_for cfg st rf j = [(e.path, j.SourceFile)])
    ∧ ((match_jpeg_to_raw cfg st rf j true).2.2 = true →
        grafts_for cfg st rf j = [])
    ∧ ((match_jpeg_to_raw cfg st rf j true).1 = Option.none →
        grafts_for cfg st rf j = []) := by
  refine ⟨rfl, ?_, ?_, ?_⟩
  · intro e ur h
    simp [grafts_for, h]
  · intro h
    simp [grafts_for, h]
  · intro h
    rcases hm : match_jpeg_to_raw cfg st rf j true with ⟨b, ur, amb⟩
    rw [hm] at h
    simp at h
    cases amb <;> simp [grafts_for, hm, h]

/-- Witness for C2: in the concrete run, the ambiguous JPEG produces no
graft and the uniquely matched JPEG produces exactly one. -/
theorem c2_graft_only_on_match_witness :
    grafts_for cfg0 stW refNone jpegAmb = []
    ∧ grafts_for cfg0 stW refNone jpegSelf =
        [("/r/b.nef", "/j/x.jpg")] := by
  constructor
  · exact (c2_graft_only_on_match cfg0 stW refNone [] jpegAmb).2.2.1 (by decide)
  · have h := (c2_graft_only_on_match cfg0 stW refNone [] jpegSelf).2.1
      (entryOf rawB) false (by decide)
    simpa using h

/-- C3 counterexample: the claimed precedence would take the frame counter
5 from the shutterCount of the JPEG, whose bucket holds only /r/a.nef, yet
the matcher looks up the imageNumber 7 and returns /r/b.nef. -/
theorem c3_counterexample :
    jpegFrameCounterSpec jpegSelf = Option.some 5
    ∧ (dedupByPath (stW.by_shutter 5)).map Entry.path = ["/r/a.nef"]
    ∧ match_jpeg_to_raw cfg0 stW refNone jpegSelf true =
        (Option.some (entryOf rawB), false, false)
    ∧ (entryOf rawB).path = "/r/b.nef" := by
  decide

/-- C3 (amended): in the self frame-counter fallback the matcher uses only
the imageNumber of the JPEG; its shutterCount and mechanicalShutterCount
are never consulted anywhere in matching, so changing them cannot change
the result. -/
theorem c3_amended_self_counter_is_imagenumber (cfg : Config) (st : Store)
    (rf : String → Option Metadata) (j : Metadata) (u : Bool) (x y : PyVal) :
    match_jpeg_to_raw cfg st rf
        { j with ShutterCount := x, MechanicalShutterCount := y } u =
      match_jpeg_to_raw cfg st rf j u := rfl

/-- C5 counterexample: a record carrying CameraSerialNumber X and no
SerialNumber is indexed with an absent serial, while the claimed derivation
would produce X. -/
theorem c5_counterexample :
    (entryOf mC5).serialNumber = PyVal.none
    ∧ bodyIdentifierSpec mC5 = PyVal.str "X"
    ∧ PyVal.none ≠ PyVal.str "X" := by
  decide

/-- C5 (amended): the body identifier of an indexed entry is exactly the
SerialNumber value of the record; CameraSerialNumber and BodySerialNumber
are never consulted. -/
theorem c5_amended_serial_only (m : Metadata) (x y : PyVal) :
    (entryOf { m with CameraSerialNumber := x, BodySerialNumber := y }).serialNumber
        = m.SerialNumber
    ∧ (entryOf m).serialNumber = m.SerialNumber :=
  ⟨rfl, rfl⟩

/-- C7: an enabled identity requirement whose wanted value (JPEG first,
then reference) is not truthy is skipped: the serial filter behaves as if
disabled, the lens filter behaves as if disabled, and with both wanted
values missing the candidate set is returned unchanged. -/
theorem c7_filters_skip_without_evidence (cfg : Config) (cands : List Entry)
    (j : Metadata) (r : Option Metadata) :
    (truthy (pyOr j.SerialNumber (ref_serial_of r)) = false →
      apply_lens_serial_requirements cfg cands j r =
        apply_lens_serial_requirements { cfg with require_serial := false } cands j r)
    ∧ (truthy (pyOr (pyOr j.LensID j.LensModel) (ref_lens_of r)) = false →
      apply_lens_serial_requirements cfg cands j r =
        apply_lens_serial_requirements { cfg with require_lens := false } cands j r)
    ∧ (truthy (pyOr j.SerialNumber (ref_serial_of r)) = false →
       truthy (pyOr (pyOr j.LensID j.LensModel) (ref_lens_of r)) = false →
      apply_lens_serial_requirements cfg cands j r = cands) := by
  refine ⟨?_, ?_, ?_⟩
  · intro h
    simp [apply_lens_serial_requirements, h]
  · intro h
    simp [apply_lens_serial_requirements, h]
  · intro h1 h2
    simp [apply_lens_serial_requirements, h1, h2]

/-- Witness for C7: both requirements enabled, a nonempty candidate set,
and no serial or lens anywhere: the set passes through unfiltered. -/
theorem c7_filters_skip_without_evidence_witness :
    apply_lens_serial_requirements
        { require_serial := true, require_lens := true, has_ref_root := false }
        [entryOf rawA] noneMeta Option.none = [entryOf rawA] :=
  (c7_filters_skip_without_evidence
    { require_serial := true, require_lens := true, has_ref_root := false }
    [entryOf rawA] noneMeta Option.none).2.2 (by decide) (by decide)

/-- C8 counterexample: with CreateDate already ending in the offset shape
but containing no dot, a present sub-second tag is appended first, after
which the offset test fails and the offset is appended a second time — the
claim predicts no offset augmentation here. -/
theorem c8_counterexample :
    has_offset "2024:05:01 10:00:00+02:00" = true
    ∧ compose_creation mC8 =
        Option.some "2024:05:01 10:00:00+02:00.123+02:00"
    ∧ "2024:05:01 10:00:00+02:00.123+02:00" ≠
        "2024:05:01 10:00:00+02:00.123" := by
  decide

/-- C8 (amended): compose_creation never double-augments in this sense: a
base timestamp containing a dot receives no sub-second suffix (the
sub-second fields are then irrelevant), and the offset test is applied to
the sub-second-augmented string — when that string already ends in the
offset shape, nothing more is appended. -/
theorem c8_amended_no_double_augment (m : Metadata)
    (hc : truthy m.CreateDate = true) :
    (has_subsec (pyStr m.CreateDate) = true → ∀ d o g,
      compose_creation
          { m with
            SubSecTimeDigitized := d, SubSecTimeOriginal := o,
            SubSecTime := g } = compose_creation m)
    ∧ (has_offset (branch1_subsec (pyStr m.CreateDate)
          m.SubSecTimeDigitized m.SubSecTimeOriginal m.SubSecTime) = true →
      compose_creation m =
        Option.some (branch1_subsec (pyStr m.CreateDate)
          m.SubSecTimeDigitized m.SubSecTimeOriginal m.SubSecTime)) := by
  constructor
  · intro hs d o g
    simp [compose_creation, hc, branch1_subsec, hs]
  · intro hOff
    simp [compose_creation, hc, offset_augment, hOff]

/-- Witness for C8 (amended): a dotted CreateDate ignores sub-second tags,
and a dotted, offset-bearing CreateDate is returned without a second
offset. -/
theorem c8_amended_no_double_augment_witness :
    compose_creation
        { mW1 with
          SubSecTimeDigitized := .str "9", SubSecTimeOriginal := .none,
          SubSecTime := .none } = compose_creation mW1
    ∧ compose_creation mW2 =
        Option.some (branch1_subsec (pyStr mW2.CreateDate)
          mW2.SubSecTimeDigitized mW2.SubSecTimeOriginal mW2.SubSecTime) :=
  ⟨(c8_amended_no_double_augment mW1 (by decide)).1 (by decide)
      (.str "9") .none .none,
   (c8_amended_no_double_augment mW2 (by decide)).2 (by decide)⟩

/-- C10: falsy sub-second and offset values are passed over: with a
dot-free CreateDate, a falsy digitized sub-second field and a nonempty
original one, the key gains the suffix of the original value; all-empty
offset fields append nothing; and the or-chain itself skips any falsy
operand. -/
theorem c10_falsy_fields_skipped :
    (∀ (cd : String) (dg : PyVal) (t : String) (g : PyVal),
      cd ≠ "" → has_subsec cd = false → truthy dg = false → t ≠ "" →
      compose_creation (c10rec cd dg t g) = Option.some (cd ++ "." ++ t))
    ∧ (∀ m : Metadata, m.OffsetTimeDigitized = .str "" →
        m.OffsetTimeOriginal = .str "" → m.OffsetTime = .str "" →
        truthy m.CreateDate = true →
        compose_creation m =
          Option.some (branch1_subsec (pyStr m.CreateDate)
            m.SubSecTimeDigitized m.SubSecTimeOriginal m.SubSecTime))
    ∧ (∀ a b : PyVal, truthy a = false → pyOr a b = b) := by
  refine ⟨?_, ?_, ?_⟩
  · intro cd dg t g hcd hs hdg ht
    have hcdT : truthy (PyVal.str cd) = true := by
      simp [truthy, hcd]
    have ht2 : truthy (PyVal.str t) = true := by
      simp [truthy, ht]
    have h1 : pyOr dg (PyVal.str t) = PyVal.str t := by
      unfold pyOr
      rw [hdg]
      simp
    have hsub : pyOr (pyOr dg (PyVal.str t)) g = PyVal.str t := by
      rw [h1]
      unfold pyOr
      rw [ht2]
      simp
    have hb : branch1_subsec cd dg (PyVal.str t) g = cd ++ "." ++ t := by
      unfold branch1_subsec
      simp [hs, hsub, pyStr, ht]
    have hoff : ∀ s, offset_augment s (PyVal.str "") = s := by
      intro s
      unfold offset_augment
      simp [truthy]
    unfold compose_creation
    simp only [c10rec]
    simp [hcdT, pyStr, hb, hoff, pyOr, truthy]
    intro h0
    exact absurd h0 hcd
  · intro m h1 h2 h3 hc
    have hoa : pyOr (pyOr m.OffsetTimeDigitized m.OffsetTimeOriginal) m.OffsetTime
        = PyVal.str "" := by
      rw [h1, h2, h3]
      decide
    have hfalse : truthy (PyVal.str "") = false := by decide
    unfold compose_creation
    simp [hc, hoa, offset_augment, hfalse]
  · intro a b h
    simp [pyOr, h]

/-- C4: in both narrowing fallbacks, a plural deduplicated candidate set
and a truthy creation key narrow to the subset sharing that key, keeping
the unnarrowed set when the subset is empty; and a nonempty base set never
yields an empty result. -/
theorem c4_narrow_or_keep (st : Store) (n : Int) (ck : Option String)
    (pn : PyVal) :
    (1 < (dedupByPath (st.by_shutter n)).length → truthyOpt ck = true →
      apply_imagenumber_fallback st (Option.some n) ck =
        (if ((dedupByPath (st.by_shutter n)).filter
              (fun e => e.createKey == ck)).isEmpty
         then dedupByPath (st.by_shutter n)
         else (dedupByPath (st.by_shutter n)).filter
              (fun e => e.createKey == ck)))
    ∧ (dedupByPath (st.by_shutter n) ≠ [] →
        apply_imagenumber_fallback st (Option.some n) ck ≠ [])
    ∧ (truthy pn = true →
       1 < (preserved_candidates st pn).length → truthyOpt ck = true →
       apply_preserved_name_fallback st pn ck =
        (if ((preserved_candidates st pn).filter
              (fun e => e.createKey == ck)).isEmpty
         then preserved_candidates st pn
         else (preserved_candidates st pn).filter
              (fun e => e.createKey == ck)))
    ∧ (truthy pn = true → preserved_candidates st pn ≠ [] →
        apply_preserved_name_fallback st pn ck ≠ []) := by
  refine ⟨?_, ?_, ?_, ?_⟩
  · intro h1 h2
    simp only [apply_imagenumber_fallback]
    rw [if_pos ⟨h1, h2⟩]
  · intro hne
    simp only [apply_imagenumber_fallback]
    split
    · split
      · exact hne
      · rename_i hfull
        intro hcontra
        apply hfull
        rw [hcontra]
        rfl
    · exact hne
  · intro h0 h1 h2
    simp only [apply_preserved_name_fallback]
    rw [if_neg (by simp [h0])]
    rw [if_pos ⟨h1, h2⟩]
  · intro h0 hne
    simp only [apply_preserved_name_fallback]
    rw [if_neg (by simp [h0])]
    split
    · split
      · exact hne
      · rename_i hfull
        intro hcontra
        apply hfull
        rw [hcontra]
        rfl
    · exact hne

/-- Witness for C4: a two-member frame-counter bucket and a two-member
preserved-name union, both narrowed by the creation key K, both
nonempty. -/
theorem c4_narrow_or_keep_witness :
    (1 < (dedupByPath (stW.by_shutter 9)).length)
    ∧ apply_imagenumber_fallback stW (Option.some 9) (Option.some "K") =
        (if ((dedupByPath (stW.by_shutter 9)).filter
              (fun e => e.createKey == Option.some "K")).isEmpty
         then dedupByPath (stW.by_shutter 9)
         else (dedupByPath (stW.by_shutter 9)).filter
              (fun e => e.createKey == Option.some "K"))
    ∧ apply_imagenumber_fallback stW (Option.some 9) (Option.some "K") ≠ []
    ∧ apply_preserved_name_fallback stW (.str "IMG_9.NEF") (Option.some "K") =
        (if ((preserved_candidates stW (.str "IMG_9.NEF")).filter
              (fun e => e.createKey == Option.some "K")).isEmpty
         then preserved_candidates stW (.str "IMG_9.NEF")
         else (preserved_candidates stW (.str "IMG_9.NEF")).filter
              (fun e => e.createKey == Option.some "K"))
    ∧ apply_preserved_name_fallback stW (.str "IMG_9.NEF") (Option.some "K") ≠ [] :=
  ⟨by decide,
   (c4_narrow_or_keep stW 9 (Option.some "K") (.str "IMG_9.NEF")).1
     (by decide) (by decide),
   (c4_narrow_or_keep stW 9 (Option.some "K") (.str "IMG_9.NEF")).2.1
     (by decide),
   (c4_narrow_or_keep stW 9 (Option.some "K") (.str "IMG_9.NEF")).2.2.1
     (by decide) (by decide) (by decide),
   (c4_narrow_or_keep stW 9 (Option.some "K") (.str "IMG_9.NEF")).2.2.2
     (by decide) (by decide)⟩

/-- An existing cache binding survives an append. -/
lemma cacheLookup_append (c : RefCache) (x : String × Option Metadata)
    (k : String) (v : Option Metadata) (h : cacheLookup c k = Option.some v) :
    cacheLookup (c ++ [x]) k = Option.some v := by
  unfold cacheLookup at h ⊢
  cases hf : c.find? (fun kv => kv.1 == k) with
  | none => rw [hf] at h; exact absurd h (by simp)
  | some kv =>
    rw [hf] at h
    rw [List.find?_append, hf]
    exact h

/-- A fresh binding appended to a cache without the key is found. -/
lemma cacheLookup_append_self (c : RefCache) (k : String) (v : Option Metadata)
    (h : cacheLookup c k = Option.none) :
    cacheLookup (c ++ [(k, v)]) k = Option.some v := by
  unfold cacheLookup at h ⊢
  cases hf : c.find? (fun kv => kv.1 == k) with
  | some kv => rw [hf] at h; exact absurd h (by simp)
  | none =>
    rw [List.find?_append, hf]
    simp

/-- Once the key is in the cache, no later call in the run searches the
filesystem for it. -/
lemma searchCount_eq_zero_of_cached (names : List String) :
    ∀ (env : RefEnv) (cache : RefCache) (k : String),
    (cacheLookup cache k).isSome = true → searchCount env cache names k = 0 := by
  induction names with
  | nil => intro env cache k _; rfl
  | cons f fs ih =>
    intro env cache k h
    cases hroot : env.has_root with
    | false =>
      simp only [searchCount, ref_find, hroot]
      simp
      exact ih env cache k h
    | true =>
      cases hc : cacheLookup cache (py_lower f) with
      | some cached =>
        simp only [searchCount, ref_find, hroot, hc]
        simp
        exact ih env cache k h
      | none =>
        have hne : ¬ (py_lower f = k) := by
          intro he
          rw [he] at hc
          rw [hc] at h
          simp at h
        simp only [searchCount, ref_find, hroot, hc]
        simp [hne]
        apply ih
        obtain ⟨v, hv⟩ := Option.isSome_iff_exists.mp h
        rw [cacheLookup_append cache _ k v hv]
        rfl

/-- Over any call sequence, each lower-cased key is searched at most
once. -/
lemma searchCount_le_one (names : List String) :
    ∀ (env : RefEnv) (cache : RefCache) (k : String),
    searchCount env cache names k ≤ 1 := by
  induction names with
  | nil => intro env cache k; exact Nat.zero_le 1
  | cons f fs ih =>
    intro env cache k
    cases hroot : env.has_root with
    | false =>
      simp only [searchCount, ref_find, hroot]
      simp
      exact ih env cache k
    | true =>
      cases hc : cacheLookup cache (py_lower f) with
      | some cached =>
        simp only [searchCount, ref_find, hroot, hc]
        simp
        exact ih env cache k
      | none =>
        by_cases hk : py_lower f = k
        · have h0 : searchCount env (cache ++ [(py_lower f, env.search f)]) fs k = 0 := by
            apply searchCount_eq_zero_of_cached
            rw [← hk]
            rw [cacheLookup_append_self cache (py_lower f) (env.search f) hc]
            rfl
          simp only [searchCount, ref_find, hroot, hc]
          simp [hk]
          rw [hk] at h0
          exact h0
        · simp only [searchCount, ref_find, hroot, hc]
          simp [hk]
          exact ih env _ k

/-- C6: the Reference Resolver performs at most one filesystem search per
lower-cased filename over an entire run; a cache hit is answered from the
cache with the filesystem untouched; after any call the key maps to the
returned result (an absent result cached like a present one); and existing
cache bindings are never changed. -/
theorem c6_memoised_resolver (env : RefEnv) (names : List String) (k : String)
    (cache : RefCache) (f : String) (v : Option Metadata) :
    searchCount env [] names k ≤ 1
    ∧ (env.has_root = true → cacheLookup cache (py_lower f) = Option.some v →
        ref_find env cache f = (v, cache, false))
    ∧ (env.has_root = true →
        cacheLookup (ref_find env cache f).2.1 (py_lower f) =
          Option.some (ref_find env cache f).1)
    ∧ (∀ k2 v2, cacheLookup cache k2 = Option.some v2 →
        cacheLookup (ref_find env cache f).2.1 k2 = Option.some v2) := by
  refine ⟨searchCount_le_one names env [] k, ?_, ?_, ?_⟩
  · intro hroot hc
    simp only [ref_find, hroot, hc]
    simp
  · intro hroot
    cases hc : cacheLookup cache (py_lower f) with
    | some cached =>
      simp only [ref_find, hroot, hc]
      simp
      exact hc
    | none =>
      simp only [ref_find, hroot, hc]
      simp
      exact cacheLookup_append_self cache (py_lower f) (env.search f) hc
  · intro k2 v2 h2
    cases hroot : env.has_root with
    | false =>
      simp only [ref_find, hroot]
      simp
      exact h2
    | true =>
      cases hc : cacheLookup cache (py_lower f) with
      | some cached =>
        simp only [ref_find, hroot, hc]
        simp
        exact h2
      | none =>
        simp only [ref_find, hroot, hc]
        simp
        exact cacheLookup_append cache _ k2 v2 h2

/-- The reference environment of the witness: a root is configured and
every probe comes back empty. -/
def envW : RefEnv := { has_root := true, search := fun _ => Option.none }

/-- Witness for C6: after a negative result for a.jpg was cached, a lookup
of the differently-cased A.JPG is answered from the cache without a
filesystem search. -/
theorem c6_memoised_resolver_witness :
    ref_find envW [("a.jpg", Option.none)] "A.JPG" =
      (Option.none, [("a.jpg", Option.none)], false) :=
  (c6_memoised_resolver envW [] "" [("a.jpg", Option.none)] "A.JPG"
    Option.none).2.1 rfl (by decide)

/-- The paths of a candidate list are pairwise distinct. -/
def nodupPaths (l : List Entry) : Prop := (l.map Entry.path).Nodup

/-- One dictionary insertion keeps keys equal to the paths of their values
and keeps the keys pairwise distinct. -/
lemma dictInsert_invariant (d : List (String × Entry)) (e : Entry)
    (h1 : ∀ kv ∈ d, kv.1 = kv.2.path) (h2 : (d.map Prod.fst).Nodup) :
    (∀ kv ∈ dictInsert d e, kv.1 = kv.2.path) ∧
      ((dictInsert d e).map Prod.fst).Nodup := by
  unfold dictInsert
  split
  · constructor
    · intro kv hkv
      rw [List.mem_map] at hkv
      obtain ⟨kv0, hkv0, hEq⟩ := hkv
      by_cases hc : (kv0.1 == e.path) = true
      · rw [if_pos hc] at hEq
        rw [← hEq]
        exact eq_of_beq hc
      · rw [if_neg hc] at hEq
        rw [← hEq]
        exact h1 kv0 hkv0
    · have hfst : (d.map (fun kv => if (kv.1 == e.path) = true then (kv.1, e) else kv)).map
          Prod.fst = d.map Prod.fst := by
        rw [List.map_map]
        apply List.map_congr_left
        intro kv _
        by_cases hc : kv.1 = e.path
        · simp [hc]
        · simp [hc]
      rw [hfst]
      exact h2
  · rename_i hany
    constructor
    · intro kv hkv
      rcases List.mem_append.mp hkv with h | h
      · exact h1 kv h
      · simp at h
        rw [h]
    · rw [List.map_append]
      simp only [List.map_cons, List.map_nil]
      have hnotin : e.path ∉ d.map Prod.fst := by
        intro hmem
        rw [List.mem_map] at hmem
        obtain ⟨kv, hkv, hEq⟩ := hmem
        apply hany
        rw [List.any_eq_true]
        exact ⟨kv, hkv, beq_iff_eq.mpr hEq⟩
      exact h2.append (List.nodup_singleton e.path)
        (by intro x hx hy; simp at hy; subst hy; exact hnotin hx)

/-- The insertion invariant carries over a whole fold. -/
lemma foldl_dictInsert_invariant (l : List Entry) :
    ∀ d : List (String × Entry),
    ((∀ kv ∈ d, kv.1 = kv.2.path) ∧ (d.map Prod.fst).Nodup) →
    ((∀ kv ∈ l.foldl dictInsert d, kv.1 = kv.2.path) ∧
      ((l.foldl dictInsert d).map Prod.fst).Nodup) := by
  induction l with
  | nil => intro d h; exact h
  | cons e es ih =>
    intro d h
    exact ih (dictInsert d e) (dictInsert_invariant d e h.1 h.2)

/-- Deduplication by path yields pairwise distinct paths. -/
lemma dedupByPath_nodupPaths (l : List Entry) : nodupPaths (dedupByPath l) := by
  obtain ⟨h1, h2⟩ := foldl_dictInsert_invariant l []
    ⟨by intro kv h; simp at h, List.nodup_nil⟩
  unfold nodupPaths dedupByPath
  rw [List.map_map]
  have hEq : (l.foldl dictInsert []).map (Entry.path ∘ fun kv => kv.2) =
      (l.foldl dictInsert []).map Prod.fst := by
    apply List.map_congr_left
    intro kv hkv
    exact (h1 kv hkv).symm
  rw [hEq]
  exact h2

/-- Filtering preserves pairwise distinct paths. -/
lemma nodupPaths_filter (l : List Entry) (p : Entry → Bool)
    (h : nodupPaths l) : nodupPaths (l.filter p) :=
  h.sublist ((List.filter_sublist l).map Entry.path)

/-- The frame-counter fallback returns pairwise distinct paths. -/
lemma apply_imagenumber_fallback_nodupPaths (st : Store) (i : Option Int)
    (ck : Option String) : nodupPaths (apply_imagenumber_fallback st i ck) := by
  cases i with
  | none => simp [apply_imagenumber_fallback, nodupPaths]
  | some n =>
    simp only [apply_imagenumber_fallback]
    split
    · split
      · exact dedupByPath_nodupPaths _
      · exact nodupPaths_filter _ _ (dedupByPath_nodupPaths _)
    · exact dedupByPath_nodupPaths _

/-- The preserved-name fallback returns pairwise distinct paths. -/
lemma apply_preserved_name_fallback_nodupPaths (st : Store) (pn : PyVal)
    (ck : Option String) : nodupPaths (apply_preserved_name_fallback st pn ck) := by
  simp only [apply_preserved_name_fallback]
  split
  · simp [nodupPaths]
  · split
    · split
      · exact dedupByPath_nodupPaths _
      · exact nodupPaths_filter _ _ (dedupByPath_nodupPaths _)
    · exact dedupByPath_nodupPaths _

/-- The identity filters preserve pairwise distinct paths. -/
lemma apply_lens_serial_requirements_nodupPaths (cfg : Config)
    (cands : List Entry) (j : Metadata) (r : Option Metadata)
    (h : nodupPaths cands) :
    nodupPaths (apply_lens_serial_requirements cfg cands j r) := by
  simp only [apply_lens_serial_requirements]
  repeat' split
  all_goals first
    | exact nodupPaths_filter _ _ (nodupPaths_filter _ _ h)
    | exact nodupPaths_filter _ _ h
    | exact h

/-- The primary creation-key lookup returns pairwise distinct paths. -/
lemma primary_candidates_nodupPaths (st : Store) (ck : Option String) :
    nodupPaths (primary_candidates st ck) := by
  cases ck with
  | none => simp [primary_candidates, nodupPaths]
  | some k =>
    by_cases hk : k = ""
    · simp [primary_candidates, hk, nodupPaths]
    · simp only [primary_candidates]
      rw [if_pos hk]
      exact dedupByPath_nodupPaths _

/-- The self fallbacks preserve pairwise distinct paths. -/
lemma self_fallback_nodupPaths (st : Store) (j : Metadata)
    (ck : Option String) (cl : List Entry) (h : nodupPaths cl) :
    nodupPaths (self_fallback st j ck cl) := by
  simp only [self_fallback]
  repeat' split
  all_goals first
    | exact apply_preserved_name_fallback_nodupPaths _ _ _
    | exact apply_imagenumber_fallback_nodupPaths _ _ _
    | exact h

/-- The reference block preserves pairwise distinct paths. -/
lemma ref_fallback_nodupPaths (st : Store) (rm : Metadata)
    (ck : Option String) (cl : List Entry) (ur : Bool) (h : nodupPaths cl) :
    nodupPaths (ref_fallback st rm ck cl ur).1 := by
  simp only [ref_fallback]
  repeat' split
  all_goals first
    | exact apply_preserved_name_fallback_nodupPaths _ _ _
    | exact apply_imagenumber_fallback_nodupPaths _ _ _
    | exact h

/-- C9: every candidate set drawn during matching is free of duplicate
paths: deduplication by path always yields pairwise distinct paths, both
fallback lookups return such sets, and the final candidate set of
match_jpeg_to_raw has pairwise distinct paths. -/
theorem c9_no_duplicate_paths (cfg : Config) (st : Store)
    (rf : String → Option Metadata) (j : Metadata) (u : Bool) :
    (∀ l : List Entry, ((dedupByPath l).map Entry.path).Nodup)
    ∧ (∀ (i : Option Int) (ck : Option String),
        ((apply_imagenumber_fallback st i ck).map Entry.path).Nodup)
    ∧ (∀ (pn : PyVal) (ck : Option String),
        ((apply_preserved_name_fallback st pn ck).map Entry.path).Nodup)
    ∧ (((matchFinalCandidates cfg st rf j u).1).map Entry.path).Nodup := by
  refine ⟨dedupByPath_nodupPaths, ?_, ?_, ?_⟩
  · intro i ck
    exact apply_imagenumber_fallback_nodupPaths st i ck
  · intro pn ck
    exact apply_preserved_name_fallback_nodupPaths st pn ck
  · have hbase : nodupPaths (self_fallback st j (compose_creation j)
        (primary_candidates st (compose_creation j))) :=
      self_fallback_nodupPaths _ _ _ _ (primary_candidates_nodupPaths _ _)
    simp only [matchFinalCandidates]
    repeat' split
    all_goals first
      | exact apply_lens_serial_requirements_nodupPaths _ _ _ _
          (ref_fallback_nodupPaths _ _ _ _ _ hbase)
      | exact apply_lens_serial_requirements_nodupPaths _ _ _ _ hbase
      | exact ref_fallback_nodupPaths _ _ _ _ _ hbase
      | exact hbase

/-- Witness for C10: the concrete scenario of the claim. -/
theorem c10_falsy_fields_skipped_witness :
    compose_creation (c10rec "2024:05:01 10:00:00" (.str "") "123" .none) =
      Option.some "2024:05:01 10:00:00.123" :=
  c10_falsy_fields_skipped.1 "2024:05:01 10:00:00" (.str "") "123" .none
    (by decide) (by decide) (by decide) (by decide)

end GPSCopy
